import Mathlib

/-!
A verification development for the iterative answer-refinement
orchestrator implemented in agentic_selectai.py.  The LangGraph
workflow (selectai -> check_selectai_output -> improve_question or
result2nl) is embedded shallowly: graph nodes become functions on an
explicit state record, the module-level retry counter is threaded as an
explicit argument, LLM and database calls become oracle parameters, and
one invocation of the compiled workflow becomes the recursive function
runLoop, which also records a trace of the port interactions.
-/

/-- Retry budget, src/agentic_selectai.py line 303: MAX_RETRIES = 5. -/
def MAX_RETRIES : Nat := 5

/-- Static medical term dictionary, src/agentic_selectai.py lines 33-48. -/
def MEDICAL_TERM_DICT : String :=
  "\nPatient = Subject\nCoronary Artery Bypass Graft = CABG\nType 1 Diabetes Mellitus = DM1\nType 2 Diabetes Mellitus = DM2\nMyocardial Infarction = MI\nPeripheral Artery Disease = PAD\nAnatomical Therapeutic Chemical = ATC\nconcomitant medication = drugs\nAbdominal Aortic Aneurysm = AAA\nCoronary Artery Disease = CAD\nSystolic Blood Pressure = SYSBP\nDiastolic Blood Pressure = DIABP\nElectrocardiogram = ECGP\nInitial Point of Reference Check = baseline\nInitial visit = baseline visit"

/-- Boolean test that the first character list is an initial segment of the second. -/
def leadsWith : List Char → List Char → Bool
  | [], _ => true
  | _ :: _, [] => false
  | a :: as, b :: bs => a == b && leadsWith as bs

/-- Boolean test that the first character list occurs contiguously inside the second. -/
def containsSeq (needle : List Char) : List Char → Bool
  | [] => needle.isEmpty
  | c :: rest => leadsWith needle (c :: rest) || containsSeq needle rest

/-- Python substring membership test from src/agentic_selectai.py line 476:
the literal token Pass occurring anywhere inside the verdict text. -/
def hasPassToken (feedback : String) : Bool :=
  containsSeq ("Pass").data feedback.data

/-- The LangGraph state record State, src/agentic_selectai.py lines 348-357. -/
structure State where
  questionlatest : String
  sqllatest : String
  resultlatest : String
  questionhistory : List String
  sqlhistory : List String
  resulthistory : List String
  feedback : String
  nl : String
  deriving DecidableEq

/-- Outcome of one DBMS_CLOUD_AI.GENERATE cursor call inside the selectai
node: an exception was raised, the fetched payload was malformed or absent
(not a LOB), or a LOB whose text was read. -/
inductive LobResult where
  | err
  | notLob
  | lob (text : String)
  deriving DecidableEq

/-- Python slice to 3000 characters, src/agentic_selectai.py lines 390 and 405. -/
def truncate3000 (s : String) : String := String.mk (s.data.take 3000)

/-- The selectai node, src/agentic_selectai.py lines 360-412.  The first
cursor call (action explainsql) fills sqllatest; if it raises, the node
returns with both fields set to the sentinel NONE and the second call never
happens.  Otherwise the second cursor call (action runsql) fills
resultlatest, degrading to NONE on an exception or a non-LOB payload. -/
def selectai (state : State) (explainOut runOut : LobResult) : State :=
  match explainOut with
  | LobResult.err => { state with sqllatest := "NONE", resultlatest := "NONE" }
  | LobResult.notLob =>
    match runOut with
    | LobResult.lob text =>
      { state with sqllatest := "NONE", resultlatest := truncate3000 text }
    | _ => { state with sqllatest := "NONE", resultlatest := "NONE" }
  | LobResult.lob sqlText =>
    match runOut with
    | LobResult.lob text =>
      { state with sqllatest := truncate3000 sqlText, resultlatest := truncate3000 text }
    | _ => { state with sqllatest := truncate3000 sqlText, resultlatest := "NONE" }

/-- Content of the gate prompt sent to the QA judge.  Embeds
prompt_template.format(question=state.questionlatest, result=state.resultlatest)
at src/agentic_selectai.py line 469: GATE_PROMPT_TEMPLATE is a fixed literal
and exactly these two state fields are substituted into it, so two requests
are equal exactly when the substituted field values are equal. -/
structure JudgeRequest where
  question : String
  result : String
  deriving DecidableEq

/-- Content of the refinement prompt sent to the refiner LLM.  Embeds
prompt_template.format(question=..., questionhistory=..., feedback=...,
medical_term_dictionary=...) at src/agentic_selectai.py lines 431-436:
IMPROVE_QUESTION_TEMPLATE is a fixed literal and exactly these four values
are substituted into it. -/
structure RefinerRequest where
  question : String
  questionhistory : List String
  feedback : String
  medical_term_dictionary : String
  deriving DecidableEq

/-- Content of the formatting prompt sent to the formatter LLM.  Embeds
prompt_template.format(question=..., sql=..., result=...) at
src/agentic_selectai.py lines 503-507. -/
structure FormatRequest where
  question : String
  sql : String
  result : String
  deriving DecidableEq

/-- The judge request built by check_selectai_output,
src/agentic_selectai.py line 469. -/
def judgeRequestOf (state : State) : JudgeRequest :=
  { question := state.questionlatest, result := state.resultlatest }

/-- The refiner request built by improve_question,
src/agentic_selectai.py lines 431-436. -/
def refinerRequestOf (state : State) : RefinerRequest :=
  { question := state.questionlatest,
    questionhistory := state.questionhistory,
    feedback := state.feedback,
    medical_term_dictionary := MEDICAL_TERM_DICT }

/-- The formatter request built by result2nl,
src/agentic_selectai.py lines 503-507. -/
def formatRequestOf (state : State) : FormatRequest :=
  { question := state.questionlatest, sql := state.sqllatest,
    result := state.resultlatest }

/-- State mutation performed by the improve_question node once the refiner
LLM has answered, src/agentic_selectai.py lines 442-443: the question being
replaced is appended to questionhistory, then questionlatest is overwritten
with the refiner output. -/
def improve_question (state : State) (improved_question : String) : State :=
  { state with
    questionhistory := state.questionhistory ++ [state.questionlatest],
    questionlatest := improved_question }

/-- The conditional edge check_selectai_output, src/agentic_selectai.py
lines 449-483, given the judge LLM response text.  The global retry counter
is threaded explicitly: it is incremented once on entry; the edge labelled
Pass is taken when the token Pass occurs in the response or the incremented
counter has reached MAX_RETRIES, and in that case the global counter is
reset to 0; otherwise the response is stored into feedback and the edge
labelled Fail is taken.  Returns (edge label, state, global counter). -/
def check_selectai_output (state : State) (retry_counter : Nat)
    (feedback : String) : String × State × Nat :=
  let retry_counter := retry_counter + 1
  if hasPassToken feedback ∨ MAX_RETRIES ≤ retry_counter then
    ("Pass", state, 0)
  else
    ("Fail", { state with feedback := feedback }, retry_counter)

/-- State mutation performed by the result2nl node once the formatter LLM
has answered, src/agentic_selectai.py lines 486-514. -/
def result2nl (state : State) (nl_text : String) : State :=
  { state with nl := nl_text }

/-- Initial state built by respond, src/agentic_selectai.py lines 561-570. -/
def initialState (question : String) : State :=
  { questionlatest := question, sqllatest := "", resultlatest := "",
    questionhistory := [], sqlhistory := [], resulthistory := [],
    feedback := "", nl := "" }

/-- Invocation-level failures: an uncaught exception raised by the judge,
refiner, or formatter LLM call (none of these calls sits inside a
try/except in src/agentic_selectai.py, so the exception propagates out of
app_workflow.invoke and aborts the invocation). -/
inductive EngineError where
  | judgeError
  | refinerError
  | formatterError
  deriving DecidableEq

/-- One observable port interaction of an invocation.  A generate event
records the question sent to Select AI together with the sql and result
payloads stored afterwards; a judge event records the request, the verdict
text, the value of the global retry counter just after its increment, and
whether the Pass edge was taken; a refine event records the state at the
moment improve_question runs, the request built from it, and the refiner
output; a format event records the request and the final answer. -/
inductive Event where
  | generateEv (question sql result : String)
  | judgeEv (req : JudgeRequest) (verdict : String) (counterAfter : Nat) (pass : Bool)
  | refineEv (pre : State) (req : RefinerRequest) (newQuestion : String)
  | formatEv (req : FormatRequest) (answer : String)
  deriving DecidableEq

/-- The external collaborators of one process, indexed by the round number
(the number of completed GENERATE-JUDGE cycles of the current invocation):
the two cursor calls of the selectai node, the judge LLM, the refiner LLM,
and the formatter LLM.  An Except.error response models the call raising. -/
structure Oracles where
  queryGen : Nat → LobResult
  queryRun : Nat → LobResult
  judge : Nat → Except Unit String
  refiner : Nat → Except Unit String
  formatter : Except Unit String

/-- Outcome of running the workflow: the trace of port interactions, the
final state (or the invocation-level error), and the value of the
module-level global retry_counter when the invocation ends. -/
structure RunResult where
  trace : List Event
  result : Except EngineError State
  counterAfter : Nat

/-- One invocation of the compiled LangGraph workflow,
src/agentic_selectai.py lines 519-538, starting at the selectai node with
the given state and the given value of the module-level global
retry_counter.  Each round runs selectai, then the conditional edge
check_selectai_output; the Pass edge leads to result2nl and END, the Fail
edge leads to improve_question and back to selectai. -/
def runLoop (o : Oracles) (state : State) (counter round : Nat) : RunResult :=
  let st1 := selectai state (o.queryGen round) (o.queryRun round)
  let genEv := Event.generateEv st1.questionlatest st1.sqllatest st1.resultlatest
  match o.judge round with
  | Except.error _ => ⟨[genEv], Except.error EngineError.judgeError, counter + 1⟩
  | Except.ok verdict =>
    match hchk : check_selectai_output st1 counter verdict with
    | (label, st2, counter2) =>
      if hl : label = "Pass" then
        let jEv := Event.judgeEv (judgeRequestOf st1) verdict (counter + 1) true
        match o.formatter with
        | Except.error _ => ⟨[genEv, jEv], Except.error EngineError.formatterError, counter2⟩
        | Except.ok nlText =>
          ⟨[genEv, jEv, Event.formatEv (formatRequestOf st2) nlText],
            Except.ok (result2nl st2 nlText), counter2⟩
      else
        let jEv := Event.judgeEv (judgeRequestOf st1) verdict (counter + 1) false
        match o.refiner round with
        | Except.error _ => ⟨[genEv, jEv], Except.error EngineError.refinerError, counter2⟩
        | Except.ok newQ =>
          let rr := runLoop o (improve_question st2 newQ) counter2 (round + 1)
          ⟨genEv :: jEv :: Event.refineEv st2 (refinerRequestOf st2) newQ :: rr.trace,
            rr.result, rr.counterAfter⟩
termination_by MAX_RETRIES - counter
decreasing_by
  unfold check_selectai_output at hchk
  by_cases hc : hasPassToken verdict = true ∨ MAX_RETRIES ≤ counter + 1
  · rw [if_pos hc] at hchk
    cases hchk
    exact absurd rfl hl
  · rw [if_neg hc] at hchk
    cases hchk
    simp only [MAX_RETRIES] at hc ⊢
    omega

/-- The respond entry point, src/agentic_selectai.py lines 550-572: build a
fresh initial state for the incoming question and invoke the workflow.  The
module-level global retry_counter is whatever the process left it at. -/
def respond (question : String) (o : Oracles) (retry_counter : Nat) : RunResult :=
  runLoop o (initialState question) retry_counter 0

/-- Whether an event is a refine event. -/
def isRefineEv : Event → Bool
  | Event.refineEv _ _ _ => true
  | _ => false

/-- Local well-formedness of an event given its immediate predecessor in a
trace: a refine event must directly follow a judge event whose Fail verdict
is exactly the feedback text carried inside the refiner request. -/
def evOkAfter (prev ev : Event) : Bool :=
  match ev with
  | Event.refineEv _ req _ =>
    match prev with
    | Event.judgeEv _ verdict _ pass => pass == false && req.feedback == verdict
    | _ => false
  | _ => true

/-- Helper scanning consecutive pairs of a trace. -/
def feedbackLinkedAux : Event → List Event → Bool
  | _, [] => true
  | prev, ev :: rest => evOkAfter prev ev && feedbackLinkedAux ev rest

/-- A trace is feedback-linked when every refine event immediately follows
a judge event with a Fail outcome whose verdict text equals the feedback
field of the refiner request. -/
def feedbackLinked : List Event → Bool
  | [] => true
  | ev :: rest => !(isRefineEv ev) && feedbackLinkedAux ev rest

/-- The (counter value after increment, Pass edge taken) pairs of the judge
events of a trace, in order. -/
def judgeRecords : List Event → List (Nat × Bool)
  | [] => []
  | Event.judgeEv _ _ c p :: rest => (c, p) :: judgeRecords rest
  | _ :: rest => judgeRecords rest

/-- Number of refine events in a trace. -/
def refineCount : List Event → Nat
  | [] => 0
  | Event.refineEv _ _ _ :: rest => refineCount rest + 1
  | _ :: rest => refineCount rest

/-- Concrete collaborators: the judge fails the first round and passes the
second; the refiner answers a fresh question. -/
def oOnce : Oracles :=
  { queryGen := fun _ => LobResult.lob ("SQL0"),
    queryRun := fun _ => LobResult.lob ("RES0"),
    judge := fun k => if k == 0 then Except.ok ("Fail: missing columns") else Except.ok ("Pass"),
    refiner := fun _ => Except.ok ("q1"),
    formatter := Except.ok ("final answer") }

/-- Concrete collaborators: the judge fails the first round and passes the
second, but the refiner returns the original question again. -/
def oRepeat : Oracles :=
  { queryGen := fun _ => LobResult.lob ("SQL"),
    queryRun := fun _ => LobResult.lob ("RES"),
    judge := fun k => if k == 0 then Except.ok ("Fail: empty result") else Except.ok ("Pass"),
    refiner := fun _ => Except.ok ("q0"),
    formatter := Except.ok ("the answer") }

/-- Final state of the oRepeat invocation started on question q0: the
refiner reproduced the original question, so questionhistory contains the
present value of questionlatest. -/
def c6Final : State :=
  { questionlatest := "q0", sqllatest := "SQL", resultlatest := "RES",
    questionhistory := ["q0"], sqlhistory := [], resulthistory := [],
    feedback := "Fail: empty result", nl := "the answer" }

/-- Concrete collaborators for an invocation whose refiner raises on its
third call: the judge always fails, and the third improve_question call
(round index 2) raises, aborting the invocation and leaving the
module-level retry counter at 3. -/
def oA : Oracles :=
  { queryGen := fun _ => LobResult.lob ("SQLA"),
    queryRun := fun _ => LobResult.lob ("RESA"),
    judge := fun _ => Except.ok ("Fail: wrong columns"),
    refiner := fun k => if k == 2 then Except.error () else Except.ok ("rq"),
    formatter := Except.ok ("ansA") }

/-- Concrete collaborators for a second, independent invocation whose judge
also fails on every attempt. -/
def oB : Oracles :=
  { queryGen := fun _ => LobResult.lob ("SQLB"),
    queryRun := fun _ => LobResult.lob ("RESB"),
    judge := fun _ => Except.ok ("Fail: still wrong"),
    refiner := fun _ => Except.ok ("rqB"),
    formatter := Except.ok ("ansB") }

/-- Concrete collaborators whose judge LLM call raises. -/
def oJudgeErr : Oracles :=
  { queryGen := fun _ => LobResult.lob ("SQLJ"),
    queryRun := fun _ => LobResult.lob ("RESJ"),
    judge := fun _ => Except.error (),
    refiner := fun _ => Except.ok ("rqJ"),
    formatter := Except.ok ("ansJ") }

/-- Concrete collaborators whose query-generation cursor call raises and
whose judge then passes the sentinel result. -/
def oGenErr : Oracles :=
  { queryGen := fun _ => LobResult.err,
    queryRun := fun _ => LobResult.err,
    judge := fun _ => Except.ok ("Pass"),
    refiner := fun _ => Except.ok ("rqG"),
    formatter := Except.ok ("ansG") }

/-- Final state of the oOnce invocation started on question q0. -/
def oOnceFinal : State :=
  { questionlatest := "q1", sqllatest := "SQL0", resultlatest := "RES0",
    questionhistory := ["q0"], sqlhistory := [], resulthistory := [],
    feedback := "Fail: missing columns", nl := "final answer" }

-- Evaluation lemmas for the conditional edge and for one round of the loop.

theorem runLoop_judgeErr (o : Oracles) (state : State) (counter round : Nat)
    (h : o.judge round = Except.error ()) :
    runLoop o state counter round =
      ⟨[Event.generateEv (selectai state (o.queryGen round) (o.queryRun round)).questionlatest
          (selectai state (o.queryGen round) (o.queryRun round)).sqllatest
          (selectai state (o.queryGen round) (o.queryRun round)).resultlatest],
        Except.error EngineError.judgeError, counter + 1⟩ := by
  unfold runLoop
  rw [h]

theorem check_eq_pass (state : State) (c : Nat) (fb : String)
    (h : hasPassToken fb = true ∨ MAX_RETRIES ≤ c + 1) :
    check_selectai_output state c fb = ("Pass", state, 0) := by
  unfold check_selectai_output
  rw [if_pos h]

theorem check_eq_fail (state : State) (c : Nat) (fb : String)
    (h1 : hasPassToken fb = false) (h2 : c + 1 < MAX_RETRIES) :
    check_selectai_output state c fb =
      ("Fail", { state with feedback := fb }, c + 1) := by
  unfold check_selectai_output
  rw [if_neg]
  rw [h1]
  simp only [Bool.false_eq_true, false_or, not_le]
  exact h2

theorem runLoop_pass (o : Oracles) (state : State) (counter round : Nat)
    (v a : String)
    (hv : o.judge round = Except.ok v)
    (hp : hasPassToken v = true ∨ MAX_RETRIES ≤ counter + 1)
    (hf : o.formatter = Except.ok a) :
    runLoop o state counter round =
      ⟨[Event.generateEv (selectai state (o.queryGen round) (o.queryRun round)).questionlatest
          (selectai state (o.queryGen round) (o.queryRun round)).sqllatest
          (selectai state (o.queryGen round) (o.queryRun round)).resultlatest,
        Event.judgeEv (judgeRequestOf (selectai state (o.queryGen round) (o.queryRun round)))
          v (counter + 1) true,
        Event.formatEv (formatRequestOf (selectai state (o.queryGen round) (o.queryRun round))) a],
        Except.ok (result2nl (selectai state (o.queryGen round) (o.queryRun round)) a), 0⟩ := by
  unfold runLoop
  rw [hv]
  simp only [check_eq_pass _ _ _ hp, hf]
  rfl

theorem runLoop_passFmtErr (o : Oracles) (state : State) (counter round : Nat)
    (v : String)
    (hv : o.judge round = Except.ok v)
    (hp : hasPassToken v = true ∨ MAX_RETRIES ≤ counter + 1)
    (hf : o.formatter = Except.error ()) :
    runLoop o state counter round =
      ⟨[Event.generateEv (selectai state (o.queryGen round) (o.queryRun round)).questionlatest
          (selectai state (o.queryGen round) (o.queryRun round)).sqllatest
          (selectai state (o.queryGen round) (o.queryRun round)).resultlatest,
        Event.judgeEv (judgeRequestOf (selectai state (o.queryGen round) (o.queryRun round)))
          v (counter + 1) true],
        Except.error EngineError.formatterError, 0⟩ := by
  unfold runLoop
  rw [hv]
  simp only [check_eq_pass _ _ _ hp, hf]
  rfl

theorem runLoop_fail (o : Oracles) (state : State) (counter round : Nat)
    (v newQ : String)
    (hv : o.judge round = Except.ok v)
    (hp : hasPassToken v = false)
    (hb : counter + 1 < MAX_RETRIES)
    (hr : o.refiner round = Except.ok newQ) :
    runLoop o state counter round =
      ⟨Event.generateEv (selectai state (o.queryGen round) (o.queryRun round)).questionlatest
          (selectai state (o.queryGen round) (o.queryRun round)).sqllatest
          (selectai state (o.queryGen round) (o.queryRun round)).resultlatest ::
        Event.judgeEv (judgeRequestOf (selectai state (o.queryGen round) (o.queryRun round)))
          v (counter + 1) false ::
        Event.refineEv
          { selectai state (o.queryGen round) (o.queryRun round) with feedback := v }
          (refinerRequestOf
            { selectai state (o.queryGen round) (o.queryRun round) with feedback := v })
          newQ ::
        (runLoop o
          (improve_question
            { selectai state (o.queryGen round) (o.queryRun round) with feedback := v } newQ)
          (counter + 1) (round + 1)).trace,
        (runLoop o
          (improve_question
            { selectai state (o.queryGen round) (o.queryRun round) with feedback := v } newQ)
          (counter + 1) (round + 1)).result,
        (runLoop o
          (improve_question
            { selectai state (o.queryGen round) (o.queryRun round) with feedback := v } newQ)
          (counter + 1) (round + 1)).counterAfter⟩ := by
  conv_lhs => unfold runLoop
  rw [hv]
  simp only [check_eq_fail _ _ _ hp hb, hr]
  rw [dif_neg (by decide : ¬(("Fail" : String) = "Pass"))]

theorem runLoop_failRefErr (o : Oracles) (state : State) (counter round : Nat)
    (v : String)
    (hv : o.judge round = Except.ok v)
    (hp : hasPassToken v = false)
    (hb : counter + 1 < MAX_RETRIES)
    (hr : o.refiner round = Except.error ()) :
    runLoop o state counter round =
      ⟨[Event.generateEv (selectai state (o.queryGen round) (o.queryRun round)).questionlatest
          (selectai state (o.queryGen round) (o.queryRun round)).sqllatest
          (selectai state (o.queryGen round) (o.queryRun round)).resultlatest,
        Event.judgeEv (judgeRequestOf (selectai state (o.queryGen round) (o.queryRun round)))
          v (counter + 1) false],
        Except.error EngineError.refinerError, counter + 1⟩ := by
  conv_lhs => unfold runLoop
  rw [hv]
  simp only [check_eq_fail _ _ _ hp hb, hr]
  rw [dif_neg (by decide : ¬(("Fail" : String) = "Pass"))]

@[simp] theorem selectai_questionlatest (state : State) (e r : LobResult) :
    (selectai state e r).questionlatest = state.questionlatest := by
  cases e <;> cases r <;> rfl

@[simp] theorem selectai_questionhistory (state : State) (e r : LobResult) :
    (selectai state e r).questionhistory = state.questionhistory := by
  cases e <;> cases r <;> rfl

@[simp] theorem selectai_sqlhistory (state : State) (e r : LobResult) :
    (selectai state e r).sqlhistory = state.sqlhistory := by
  cases e <;> cases r <;> rfl

@[simp] theorem selectai_resulthistory (state : State) (e r : LobResult) :
    (selectai state e r).resulthistory = state.resulthistory := by
  cases e <;> cases r <;> rfl

@[simp] theorem selectai_feedback (state : State) (e r : LobResult) :
    (selectai state e r).feedback = state.feedback := by
  cases e <;> cases r <;> rfl

@[simp] theorem selectai_nl (state : State) (e r : LobResult) :
    (selectai state e r).nl = state.nl := by
  cases e <;> cases r <;> rfl

@[simp] theorem improve_question_questionlatest (state : State) (q : String) :
    (improve_question state q).questionlatest = q := rfl

@[simp] theorem improve_question_questionhistory (state : State) (q : String) :
    (improve_question state q).questionhistory =
      state.questionhistory ++ [state.questionlatest] := rfl

@[simp] theorem improve_question_sqlhistory (state : State) (q : String) :
    (improve_question state q).sqlhistory = state.sqlhistory := rfl

@[simp] theorem improve_question_resulthistory (state : State) (q : String) :
    (improve_question state q).resulthistory = state.resulthistory := rfl

@[simp] theorem improve_question_feedback (state : State) (q : String) :
    (improve_question state q).feedback = state.feedback := rfl

@[simp] theorem result2nl_questionlatest (state : State) (a : String) :
    (result2nl state a).questionlatest = state.questionlatest := rfl

@[simp] theorem result2nl_questionhistory (state : State) (a : String) :
    (result2nl state a).questionhistory = state.questionhistory := rfl

@[simp] theorem result2nl_sqlhistory (state : State) (a : String) :
    (result2nl state a).sqlhistory = state.sqlhistory := rfl

@[simp] theorem result2nl_resulthistory (state : State) (a : String) :
    (result2nl state a).resulthistory = state.resulthistory := rfl

@[simp] theorem result2nl_nl (state : State) (a : String) :
    (result2nl state a).nl = a := rfl

theorem leadsWith_iff (needle : List Char) :
    ∀ haystack : List Char,
      leadsWith needle haystack = true ↔ ∃ t, haystack = needle ++ t := by
  induction needle with
  | nil =>
    intro haystack
    simp [leadsWith]
  | cons a as ih =>
    intro haystack
    cases haystack with
    | nil => simp [leadsWith]
    | cons b bs =>
      simp only [leadsWith, Bool.and_eq_true, beq_iff_eq, ih bs, List.cons_append,
        List.cons.injEq]
      constructor
      · rintro ⟨hab, t, ht⟩
        exact ⟨t, hab.symm, ht⟩
      · rintro ⟨t, hba, ht⟩
        exact ⟨hba.symm, t, ht⟩

theorem containsSeq_iff (needle : List Char) :
    ∀ haystack : List Char,
      containsSeq needle haystack = true ↔
        ∃ pre post, haystack = pre ++ needle ++ post := by
  intro haystack
  induction haystack with
  | nil =>
    simp only [containsSeq, List.isEmpty_iff]
    constructor
    · intro h
      exact ⟨[], [], by simp [h]⟩
    · rintro ⟨pre, post, h⟩
      rcases List.append_eq_nil.mp (List.append_eq_nil.mp h.symm).1 with ⟨-, h2⟩
      exact h2
  | cons c rest ih =>
    simp only [containsSeq, Bool.or_eq_true, leadsWith_iff, ih]
    constructor
    · rintro (⟨t, ht⟩ | ⟨pre, post, h⟩)
      · exact ⟨[], t, by simp [ht]⟩
      · exact ⟨c :: pre, post, by simp [h]⟩
    · rintro ⟨pre, post, h⟩
      cases pre with
      | nil =>
        exact Or.inl ⟨post, by simpa using h⟩
      | cons p ps =>
        rcases List.cons.injEq .. ▸ h with ⟨-, h2⟩
        exact Or.inr ⟨ps, post, by simpa using h2⟩

theorem hasPassToken_iff (feedback : String) :
    hasPassToken feedback = true ↔
      ∃ pre post, feedback.data = pre ++ ("Pass").data ++ post := by
  exact containsSeq_iff _ feedback.data

theorem runLoop_inv (n : Nat) :
    ∀ (o : Oracles) (state : State) (counter round : Nat),
      MAX_RETRIES - counter ≤ n →
      (∃ q s r rest, (runLoop o state counter round).trace
          = Event.generateEv q s r :: rest) ∧
      feedbackLinked (runLoop o state counter round).trace = true ∧
      (∀ pre req newQ,
          Event.refineEv pre req newQ ∈ (runLoop o state counter round).trace →
          req = refinerRequestOf pre) ∧
      (∀ st', (runLoop o state counter round).result = Except.ok st' →
          st'.sqlhistory = state.sqlhistory ∧
          st'.resulthistory = state.resulthistory ∧
          ∃ tail, st'.questionhistory = state.questionhistory ++ tail ∧
            tail.length = refineCount (runLoop o state counter round).trace) := by
  induction n with
  | zero =>
    intro o state counter round hn
    have hc : MAX_RETRIES ≤ counter + 1 := by
      simp only [MAX_RETRIES] at hn ⊢; omega
    cases hv : o.judge round with
    | error e =>
      cases e
      rw [runLoop_judgeErr o state counter round hv]
      refine ⟨⟨_, _, _, _, rfl⟩, by simp [feedbackLinked, feedbackLinkedAux, evOkAfter, isRefineEv], ?_, ?_⟩
      · intro pre req newQ hmem
        simp at hmem
      · intro st' h
        simp at h
    | ok v =>
      have hp : hasPassToken v = true ∨ MAX_RETRIES ≤ counter + 1 := Or.inr hc
      cases hf : o.formatter with
      | error e =>
        cases e
        rw [runLoop_passFmtErr o state counter round v hv hp hf]
        refine ⟨⟨_, _, _, _, rfl⟩, by simp [feedbackLinked, feedbackLinkedAux, evOkAfter, isRefineEv], ?_, ?_⟩
        · intro pre req newQ hmem
          simp at hmem
        · intro st' h
          simp at h
      | ok a =>
        rw [runLoop_pass o state counter round v a hv hp hf]
        refine ⟨⟨_, _, _, _, rfl⟩, by simp [feedbackLinked, feedbackLinkedAux, evOkAfter, isRefineEv], ?_, ?_⟩
        · intro pre req newQ hmem
          simp at hmem
        · intro st' h
          simp only [Except.ok.injEq] at h
          subst h
          refine ⟨by simp, by simp, [], by simp, by simp [refineCount]⟩
  | succ n ih =>
    intro o state counter round hn
    cases hv : o.judge round with
    | error e =>
      cases e
      rw [runLoop_judgeErr o state counter round hv]
      refine ⟨⟨_, _, _, _, rfl⟩, by simp [feedbackLinked, feedbackLinkedAux, evOkAfter, isRefineEv], ?_, ?_⟩
      · intro pre req newQ hmem
        simp at hmem
      · intro st' h
        simp at h
    | ok v =>
      by_cases hp : hasPassToken v = true ∨ MAX_RETRIES ≤ counter + 1
      · cases hf : o.formatter with
        | error e =>
          cases e
          rw [runLoop_passFmtErr o state counter round v hv hp hf]
          refine ⟨⟨_, _, _, _, rfl⟩, by simp [feedbackLinked, feedbackLinkedAux, evOkAfter, isRefineEv], ?_, ?_⟩
          · intro pre req newQ hmem
            simp at hmem
          · intro st' h
            simp at h
        | ok a =>
          rw [runLoop_pass o state counter round v a hv hp hf]
          refine ⟨⟨_, _, _, _, rfl⟩, by simp [feedbackLinked, feedbackLinkedAux, evOkAfter, isRefineEv], ?_, ?_⟩
          · intro pre req newQ hmem
            simp at hmem
          · intro st' h
            simp only [Except.ok.injEq] at h
            subst h
            refine ⟨by simp, by simp, [], by simp, by simp [refineCount]⟩
      · push_neg at hp
        have hp1 : hasPassToken v = false := by
          simpa using hp.1
        have hb : counter + 1 < MAX_RETRIES := by
          omega
        cases hr : o.refiner round with
        | error e =>
          cases e
          rw [runLoop_failRefErr o state counter round v hv hp1 hb hr]
          refine ⟨⟨_, _, _, _, rfl⟩, by simp [feedbackLinked, feedbackLinkedAux, evOkAfter, isRefineEv], ?_, ?_⟩
          · intro pre req newQ hmem
            simp at hmem
          · intro st' h
            simp at h
        | ok newQ =>
          rw [runLoop_fail o state counter round v newQ hv hp1 hb hr]
          obtain ⟨⟨q0, s0, r0, rest0, htr⟩, hlink, hreq, hres⟩ :=
            ih o
              (improve_question
                { selectai state (o.queryGen round) (o.queryRun round) with feedback := v }
                newQ)
              (counter + 1) (round + 1)
              (by simp only [MAX_RETRIES] at hn hb ⊢; omega)
          refine ⟨⟨_, _, _, _, rfl⟩, ?_, ?_, ?_⟩
          · rw [htr] at hlink ⊢
            simp only [feedbackLinked, feedbackLinkedAux, evOkAfter, isRefineEv,
              Bool.not_false, Bool.and_eq_true, Bool.not_eq_eq_eq_not, beq_iff_eq,
              refinerRequestOf] at hlink ⊢
            simp [hlink]
          · intro pre req nq hmem
            simp only [List.mem_cons] at hmem
            rcases hmem with h1 | h2 | h3 | h4
            · exact absurd h1 (by simp)
            · exact absurd h2 (by simp)
            · rcases Event.refineEv.injEq .. ▸ h3 with ⟨hpre, hreq2, -⟩
              rw [hreq2, hpre]
            · exact hreq _ _ _ h4
          · intro st' h
            obtain ⟨hsql, hresu, tail, hqh, hlen⟩ := hres st' h
            refine ⟨?_, ?_, ?_⟩
            · rw [hsql]
              simp
            · rw [hresu]
              simp
            · refine ⟨state.questionlatest :: tail, ?_, ?_⟩
              · rw [hqh]
                simp
              · simp [refineCount, hlen]

theorem oOnce_eval :
    runLoop oOnce (initialState ("q0")) 0 0 =
      ⟨[Event.generateEv ("q0") ("SQL0") ("RES0"),
        Event.judgeEv ⟨"q0", "RES0"⟩ ("Fail: missing columns") 1 false,
        Event.refineEv
          { questionlatest := "q0", sqllatest := "SQL0", resultlatest := "RES0",
            questionhistory := [], sqlhistory := [], resulthistory := [],
            feedback := "Fail: missing columns", nl := "" }
          ⟨"q0", [], "Fail: missing columns", MEDICAL_TERM_DICT⟩ ("q1"),
        Event.generateEv ("q1") ("SQL0") ("RES0"),
        Event.judgeEv ⟨"q1", "RES0"⟩ ("Pass") 2 true,
        Event.formatEv ⟨"q1", "SQL0", "RES0"⟩ ("final answer")],
        Except.ok oOnceFinal,
        0⟩ := by
  rw [runLoop_fail oOnce (initialState ("q0")) 0 0 ("Fail: missing columns") ("q1")
    rfl (by decide) (by decide) rfl]
  rw [runLoop_pass oOnce _ 1 1 ("Pass") ("final answer") rfl (Or.inl (by decide)) rfl]
  rfl

theorem oRepeat_eval :
    runLoop oRepeat (initialState ("q0")) 0 0 =
      ⟨[Event.generateEv ("q0") ("SQL") ("RES"),
        Event.judgeEv ⟨"q0", "RES"⟩ ("Fail: empty result") 1 false,
        Event.refineEv
          { questionlatest := "q0", sqllatest := "SQL", resultlatest := "RES",
            questionhistory := [], sqlhistory := [], resulthistory := [],
            feedback := "Fail: empty result", nl := "" }
          ⟨"q0", [], "Fail: empty result", MEDICAL_TERM_DICT⟩ ("q0"),
        Event.generateEv ("q0") ("SQL") ("RES"),
        Event.judgeEv ⟨"q0", "RES"⟩ ("Pass") 2 true,
        Event.formatEv ⟨"q0", "SQL", "RES"⟩ ("the answer")],
        Except.ok c6Final, 0⟩ := by
  rw [runLoop_fail oRepeat (initialState ("q0")) 0 0 ("Fail: empty result") ("q0")
    rfl (by decide) (by decide) rfl]
  rw [runLoop_pass oRepeat _ 1 1 ("Pass") ("the answer") rfl (Or.inl (by decide)) rfl]
  rfl

theorem oA_eval :
    (respond ("qA") oA 0).result = Except.error EngineError.refinerError ∧
    (respond ("qA") oA 0).counterAfter = 3 := by
  unfold respond
  rw [runLoop_fail oA (initialState ("qA")) 0 0 ("Fail: wrong columns") ("rq")
    rfl (by decide) (by decide) rfl]
  rw [runLoop_fail oA _ 1 1 ("Fail: wrong columns") ("rq")
    rfl (by decide) (by decide) rfl]
  rw [runLoop_failRefErr oA _ 2 2 ("Fail: wrong columns")
    rfl (by decide) (by decide) rfl]
  exact ⟨rfl, rfl⟩

theorem oB_from3_eval :
    judgeRecords (respond ("qB") oB 3).trace = [(4, false), (5, true)] := by
  unfold respond
  rw [runLoop_fail oB (initialState ("qB")) 3 0 ("Fail: still wrong") ("rqB")
    rfl (by decide) (by decide) rfl]
  rw [runLoop_pass oB _ 4 1 ("Fail: still wrong") ("ansB")
    rfl (Or.inr (by decide)) rfl]
  rfl

/-- Claim C1: for every invocation started with a fresh retry counter and
any sequence of Fail verdicts from the judge, the engine performs at most
MAX_RETRIES = 5 GENERATE-JUDGE cycles before forcing the Pass edge into
formatting: the retry counter increments exactly once per judge call (the
judge records read 1,2,3,4,5), the fifth judge call takes the Pass edge
regardless of the Fail verdict, and the final state's questionhistory holds
exactly 4 entries. -/
theorem c1_retry_bound :
    ∀ (o : Oracles) (q : String),
      (∀ k, ∃ v, o.judge k = Except.ok v ∧ hasPassToken v = false) →
      (∀ k, ∃ newQ, o.refiner k = Except.ok newQ) →
      (∃ a, o.formatter = Except.ok a) →
      judgeRecords (respond q o 0).trace =
        [(1, false), (2, false), (3, false), (4, false), (5, true)] ∧
      ∃ st', (respond q o 0).result = Except.ok st' ∧
        st'.questionhistory.length = 4 := by
  intro o q hJ hR hF
  obtain ⟨v0, hv0, hp0⟩ := hJ 0
  obtain ⟨v1, hv1, hp1⟩ := hJ 1
  obtain ⟨v2, hv2, hp2⟩ := hJ 2
  obtain ⟨v3, hv3, hp3⟩ := hJ 3
  obtain ⟨v4, hv4, hp4⟩ := hJ 4
  obtain ⟨n0, hr0⟩ := hR 0
  obtain ⟨n1, hr1⟩ := hR 1
  obtain ⟨n2, hr2⟩ := hR 2
  obtain ⟨n3, hr3⟩ := hR 3
  obtain ⟨a, ha⟩ := hF
  unfold respond
  rw [runLoop_fail o (initialState q) 0 0 v0 n0 hv0 hp0 (by decide) hr0]
  rw [runLoop_fail o _ 1 1 v1 n1 hv1 hp1 (by decide) hr1]
  rw [runLoop_fail o _ 2 2 v2 n2 hv2 hp2 (by decide) hr2]
  rw [runLoop_fail o _ 3 3 v3 n3 hv3 hp3 (by decide) hr3]
  rw [runLoop_pass o _ 4 4 v4 a hv4 (Or.inr (by decide)) ha]
  constructor
  · simp [judgeRecords]
  · refine ⟨_, rfl, ?_⟩
    simp [initialState]

/-- Witness for C1: the all-Fail collaborators oB, started with a fresh
counter, satisfy the hypotheses, and the invocation shows exactly five
judge calls with counters 1..5, a forced Pass on the fifth, and four
history entries. -/
theorem c1_retry_bound_witness :
    (∀ k, ∃ v, oB.judge k = Except.ok v ∧ hasPassToken v = false) ∧
    (∀ k, ∃ newQ, oB.refiner k = Except.ok newQ) ∧
    (∃ a, oB.formatter = Except.ok a) ∧
    (judgeRecords (respond ("qB2") oB 0).trace =
        [(1, false), (2, false), (3, false), (4, false), (5, true)] ∧
      ∃ st', (respond ("qB2") oB 0).result = Except.ok st' ∧
        st'.questionhistory.length = 4) := by
  have h1 : ∀ k, ∃ v, oB.judge k = Except.ok v ∧ hasPassToken v = false :=
    fun _ => ⟨_, rfl, by decide⟩
  have h2 : ∀ k, ∃ newQ, oB.refiner k = Except.ok newQ := fun _ => ⟨_, rfl⟩
  have h3 : ∃ a, oB.formatter = Except.ok a := ⟨_, rfl⟩
  exact ⟨h1, h2, h3, c1_retry_bound oB ("qB2") h1 h2 h3⟩

/-- Claim C2 is violated by the code: retry budget accounting is the
module-level global retry_counter (src/agentic_selectai.py lines 303-305,
460-461), shared by all invocations of respond in the process, not
allocated fresh per invocation.  Demonstration: invocation A's refiner
raises on its third call, aborting A and leaving the global counter at 3;
the next invocation B, whose judge fails every attempt, is then granted
only two GENERATE-JUDGE cycles (judge records (4,Fail),(5,forced Pass))
instead of the five a fresh budget provides, a premature pass-through
caused solely by A's leftover counter. -/
theorem c2_shared_counter_bug :
    (respond ("qA") oA 0).result = Except.error EngineError.refinerError ∧
    (respond ("qA") oA 0).counterAfter = 3 ∧
    judgeRecords (respond ("qB") oB ((respond ("qA") oA 0).counterAfter)).trace
      = [(4, false), (5, true)] ∧
    (∀ k, ∃ v, oB.judge k = Except.ok v ∧ hasPassToken v = false) := by
  refine ⟨oA_eval.1, oA_eval.2, ?_, fun _ => ⟨_, rfl, by decide⟩⟩
  rw [oA_eval.2]
  exact oB_from3_eval

/-- Claim C3: the conditional edge check_selectai_output takes the Pass
edge exactly when the literal token Pass occurs somewhere as a substring of
the judge verdict text, or the incremented retry counter has exhausted the
budget; exact equality of the verdict with Pass is not required. -/
theorem c3_pass_substring :
    ∀ (state : State) (retry_counter : Nat) (feedback : String),
      (check_selectai_output state retry_counter feedback).1 = "Pass" ↔
        ((∃ pre post, feedback.data = pre ++ ("Pass").data ++ post) ∨
          MAX_RETRIES ≤ retry_counter + 1) := by
  intro state rc fb
  unfold check_selectai_output
  by_cases hc : hasPassToken fb = true ∨ MAX_RETRIES ≤ rc + 1
  · rw [if_pos hc]
    constructor
    · intro _
      exact hc.imp (fun h => (hasPassToken_iff fb).mp h) id
    · intro _
      rfl
  · rw [if_neg hc]
    constructor
    · intro h
      simp at h
    · intro h
      exact absurd (h.imp (fun hh => (hasPassToken_iff fb).mpr hh) id) hc

/-- Claim C4 as stated is violated by the code: when the query-execution
(runsql) cursor call raises after a successful query-generation
(explainsql) call, only resultlatest is set to the sentinel NONE while
sqllatest keeps the generated query text, so the two fields are not both
set to the sentinel on a port failure. -/
theorem c4_counterexample :
    (selectai (initialState ("q")) (LobResult.lob ("SELECT 1 FROM DUAL"))
        LobResult.err).sqllatest = "SELECT 1 FROM DUAL" ∧
    (selectai (initialState ("q")) (LobResult.lob ("SELECT 1 FROM DUAL"))
        LobResult.err).resultlatest = "NONE" ∧
    ("SELECT 1 FROM DUAL" : String) ≠ "NONE" := by
  refine ⟨rfl, rfl, by decide⟩

/-- Claim C4 amended: when the query-generation call raises, both
sqllatest and resultlatest are set to the sentinel NONE; when the
generation call returns a malformed payload, sqllatest alone is set to the
sentinel; when the execution call raises or returns a malformed payload,
resultlatest alone is set to the sentinel; and in every case the
invocation proceeds to Judging rather than aborting (the trace still opens
with the generate event followed by a judge event, whose request carries
the sentinel as the result payload when generation raised). -/
theorem c4_amended :
    (∀ (state : State) (runOut : LobResult),
        (selectai state LobResult.err runOut).sqllatest = "NONE" ∧
        (selectai state LobResult.err runOut).resultlatest = "NONE") ∧
    (∀ (state : State) (runOut : LobResult),
        (selectai state LobResult.notLob runOut).sqllatest = "NONE") ∧
    (∀ (state : State) (explainOut : LobResult),
        (selectai state explainOut LobResult.err).resultlatest = "NONE" ∧
        (selectai state explainOut LobResult.notLob).resultlatest = "NONE") ∧
    (∀ (o : Oracles) (state : State) (counter round : Nat) (v : String),
        o.queryGen round = LobResult.err →
        o.judge round = Except.ok v →
        ∃ pass rest,
          (runLoop o state counter round).trace =
            Event.generateEv state.questionlatest ("NONE") ("NONE") ::
            Event.judgeEv ⟨state.questionlatest, "NONE"⟩ v (counter + 1) pass :: rest) := by
  refine ⟨fun state runOut => ⟨rfl, rfl⟩, fun state runOut => ?_,
    fun state explainOut => ⟨?_, ?_⟩, ?_⟩
  · cases runOut <;> rfl
  · cases explainOut <;> rfl
  · cases explainOut <;> rfl
  · intro o state counter round v hgen hv
    by_cases hp : hasPassToken v = true ∨ MAX_RETRIES ≤ counter + 1
    · cases hf : o.formatter with
      | error e =>
        cases e
        rw [runLoop_passFmtErr o state counter round v hv hp hf, hgen]
        exact ⟨true, _, rfl⟩
      | ok a =>
        rw [runLoop_pass o state counter round v a hv hp hf, hgen]
        exact ⟨true, _, rfl⟩
    · push_neg at hp
      have hp1 : hasPassToken v = false := by simpa using hp.1
      have hb : counter + 1 < MAX_RETRIES := hp.2
      cases hr : o.refiner round with
      | error e =>
        cases e
        rw [runLoop_failRefErr o state counter round v hv hp1 hb hr, hgen]
        exact ⟨false, _, rfl⟩
      | ok newQ =>
        rw [runLoop_fail o state counter round v newQ hv hp1 hb hr, hgen]
        exact ⟨false, _, rfl⟩

/-- Witness for the amended C4: collaborators whose generation cursor call
raises; the invocation still reaches a judge event whose request carries
the sentinel result payload. -/
theorem c4_amended_witness :
    (oGenErr.queryGen 0 = LobResult.err) ∧
    (oGenErr.judge 0 = Except.ok ("Pass")) ∧
    ∃ pass rest,
      (runLoop oGenErr (initialState ("qG")) 0 0).trace =
        Event.generateEv ("qG") ("NONE") ("NONE") ::
        Event.judgeEv ⟨"qG", "NONE"⟩ ("Pass") 1 pass :: rest := by
  exact ⟨rfl, rfl,
    c4_amended.2.2.2 oGenErr (initialState ("qG")) 0 0 ("Pass") rfl rfl⟩

/-- Claim C5: a raised error from the judge, refiner, or formatter LLM
call is fatal to the invocation: the run ends immediately with the
corresponding invocation-level error, no final state (hence no
finalAnswer) is produced, the failed call is not retried, and no fallback
text is substituted (the trace stops at the failing call, with no further
events). -/
theorem c5_fatal_failures :
    ∀ (o : Oracles) (state : State) (counter round : Nat),
      (o.judge round = Except.error () →
        runLoop o state counter round =
          ⟨[Event.generateEv
              (selectai state (o.queryGen round) (o.queryRun round)).questionlatest
              (selectai state (o.queryGen round) (o.queryRun round)).sqllatest
              (selectai state (o.queryGen round) (o.queryRun round)).resultlatest],
            Except.error EngineError.judgeError, counter + 1⟩) ∧
      (∀ v, o.judge round = Except.ok v → hasPassToken v = false →
        counter + 1 < MAX_RETRIES → o.refiner round = Except.error () →
        runLoop o state counter round =
          ⟨[Event.generateEv
              (selectai state (o.queryGen round) (o.queryRun round)).questionlatest
              (selectai state (o.queryGen round) (o.queryRun round)).sqllatest
              (selectai state (o.queryGen round) (o.queryRun round)).resultlatest,
            Event.judgeEv
              (judgeRequestOf (selectai state (o.queryGen round) (o.queryRun round)))
              v (counter + 1) false],
            Except.error EngineError.refinerError, counter + 1⟩) ∧
      (∀ v, o.judge round = Except.ok v →
        (hasPassToken v = true ∨ MAX_RETRIES ≤ counter + 1) →
        o.formatter = Except.error () →
        runLoop o state counter round =
          ⟨[Event.generateEv
              (selectai state (o.queryGen round) (o.queryRun round)).questionlatest
              (selectai state (o.queryGen round) (o.queryRun round)).sqllatest
              (selectai state (o.queryGen round) (o.queryRun round)).resultlatest,
            Event.judgeEv
              (judgeRequestOf (selectai state (o.queryGen round) (o.queryRun round)))
              v (counter + 1) true],
            Except.error EngineError.formatterError, 0⟩) := by
  intro o state counter round
  exact ⟨fun h => runLoop_judgeErr o state counter round h,
    fun v hv hp hb hr => runLoop_failRefErr o state counter round v hv hp hb hr,
    fun v hv hp hf => runLoop_passFmtErr o state counter round v hv hp hf⟩

/-- Witness for C5: collaborators whose judge call raises on the very
first round; the invocation aborts at once with the judge error and an
incremented counter, after only the generate event. -/
theorem c5_fatal_failures_witness :
    (oJudgeErr.judge 0 = Except.error ()) ∧
    runLoop oJudgeErr (initialState ("qJ")) 0 0 =
      ⟨[Event.generateEv ("qJ") ("SQLJ") ("RESJ")],
        Except.error EngineError.judgeError, 1⟩ := by
  refine ⟨rfl, ?_⟩
  rw [(c5_fatal_failures oJudgeErr (initialState ("qJ")) 0 0).1 rfl]
  rfl

/-- Claim C6 as stated is violated by the code: the blanket invariant that
questionhistory never contains the present value of questionlatest fails
when the refiner reproduces a previously attempted question, which nothing
in the engine prevents (non-repetition is only requested in the prompt).
Concretely, with collaborators oRepeat whose refiner returns the original
question q0 again, the invocation succeeds and ends in a state whose
questionhistory contains its questionlatest. -/
theorem c6_counterexample :
    (respond ("q0") oRepeat 0).result = Except.ok c6Final ∧
    c6Final.questionlatest ∈ c6Final.questionhistory := by
  constructor
  · unfold respond
    rw [oRepeat_eval]
  · decide

/-- Claim C6 amended: each REFINE transition appends exactly the question
being replaced to questionhistory just before overwriting questionlatest
with the refiner output, and never appends the new value; consequently the
new questionlatest avoids questionhistory provided the refiner output
differs from every history entry and from the replaced question (which the
engine requests but does not enforce). -/
theorem c6_amended :
    ∀ (state : State) (newQ : String),
      (improve_question state newQ).questionhistory =
        state.questionhistory ++ [state.questionlatest] ∧
      (improve_question state newQ).questionlatest = newQ ∧
      (newQ ∉ state.questionhistory →
        newQ ≠ state.questionlatest →
        (improve_question state newQ).questionlatest ∉
          (improve_question state newQ).questionhistory) := by
  intro state newQ
  refine ⟨rfl, rfl, ?_⟩
  intro h2 h3
  simp only [improve_question_questionlatest, improve_question_questionhistory,
    List.mem_append, List.mem_singleton]
  rintro (hh | hh)
  · exact h2 hh
  · exact h3 hh

/-- Witness for the amended C6: a refiner output distinct from the
original question leaves the new current question outside the history. -/
theorem c6_amended_witness :
    (("x2") ∉ (initialState ("x1")).questionhistory) ∧
    (("x2") ≠ (initialState ("x1")).questionlatest) ∧
    (improve_question (initialState ("x1")) ("x2")).questionlatest ∉
      (improve_question (initialState ("x1")) ("x2")).questionhistory := by
  exact ⟨by decide, by decide,
    (c6_amended (initialState ("x1")) ("x2")).2.2 (by decide) (by decide)⟩

/-- Claim C7: questionhistory is append-only.  The selectai node, the
conditional edge, and the result2nl node leave it unchanged; the
improve_question node extends it by exactly the one question being
replaced, appended at the end; and across a whole run the initial history
is a prefix of the final one, extended by exactly one entry per refine
event of the trace. -/
theorem c7_history_append_only :
    (∀ (state : State) (e r : LobResult),
        (selectai state e r).questionhistory = state.questionhistory) ∧
    (∀ (state : State) (c : Nat) (fb : String),
        ((check_selectai_output state c fb).2.1).questionhistory =
          state.questionhistory) ∧
    (∀ (state : State) (a : String),
        (result2nl state a).questionhistory = state.questionhistory) ∧
    (∀ (state : State) (newQ : String),
        (improve_question state newQ).questionhistory =
          state.questionhistory ++ [state.questionlatest]) ∧
    (∀ (o : Oracles) (state : State) (counter round : Nat) (st' : State),
        (runLoop o state counter round).result = Except.ok st' →
        ∃ tail, st'.questionhistory = state.questionhistory ++ tail ∧
          tail.length = refineCount (runLoop o state counter round).trace) := by
  refine ⟨fun state e r => selectai_questionhistory state e r, ?_,
    fun state a => rfl, fun state newQ => rfl, ?_⟩
  · intro state c fb
    unfold check_selectai_output
    by_cases hc : hasPassToken fb = true ∨ MAX_RETRIES ≤ c + 1
    · rw [if_pos hc]
    · rw [if_neg hc]
  · intro o state counter round st' h
    obtain ⟨-, -, -, hres⟩ :=
      runLoop_inv MAX_RETRIES o state counter round (Nat.sub_le _ _)
    obtain ⟨-, -, tail, h1, h2⟩ := hres st' h
    exact ⟨tail, h1, h2⟩

/-- Witness for C7: the oOnce invocation ends with exactly the original
question appended, matching its one refine event. -/
theorem c7_history_append_only_witness :
    ((runLoop oOnce (initialState ("q0")) 0 0).result = Except.ok oOnceFinal) ∧
    ∃ tail, oOnceFinal.questionhistory = (initialState ("q0")).questionhistory ++ tail ∧
      tail.length = refineCount (runLoop oOnce (initialState ("q0")) 0 0).trace := by
  have h : (runLoop oOnce (initialState ("q0")) 0 0).result = Except.ok oOnceFinal := by
    rw [oOnce_eval]
  exact ⟨h, c7_history_append_only.2.2.2.2 oOnce (initialState ("q0")) 0 0 _ h⟩

/-- Claim C8: every trace is feedback-linked (each refine event
immediately follows a judge event whose Fail verdict text is exactly the
feedback carried in the refiner request), and every refiner request
consists of the full questionhistory, the current question, the stored
feedback, and the static dictionary of the state at the moment the
refiner is called. -/
theorem c8_refiner_request :
    ∀ (o : Oracles) (state : State) (counter round : Nat),
      feedbackLinked (runLoop o state counter round).trace = true ∧
      (∀ pre req newQ,
          Event.refineEv pre req newQ ∈ (runLoop o state counter round).trace →
          req = { question := pre.questionlatest,
                  questionhistory := pre.questionhistory,
                  feedback := pre.feedback,
                  medical_term_dictionary := MEDICAL_TERM_DICT }) := by
  intro o state counter round
  obtain ⟨-, hlink, hreq, -⟩ :=
    runLoop_inv MAX_RETRIES o state counter round (Nat.sub_le _ _)
  exact ⟨hlink, fun pre req newQ hm => hreq pre req newQ hm⟩

/-- Witness for C8: the refine event of the oOnce invocation, whose
request carries the original question, the empty history, the judge Fail
reason of the immediately preceding judge event, and the dictionary. -/
theorem c8_refiner_request_witness :
    (Event.refineEv
        { questionlatest := "q0", sqllatest := "SQL0", resultlatest := "RES0",
          questionhistory := [], sqlhistory := [], resulthistory := [],
          feedback := "Fail: missing columns", nl := "" }
        ⟨"q0", [], "Fail: missing columns", MEDICAL_TERM_DICT⟩ ("q1")
      ∈ (runLoop oOnce (initialState ("q0")) 0 0).trace) ∧
    (⟨"q0", [], "Fail: missing columns", MEDICAL_TERM_DICT⟩ : RefinerRequest) =
      { question := "q0", questionhistory := [],
        feedback := "Fail: missing columns",
        medical_term_dictionary := MEDICAL_TERM_DICT } := by
  have hm : Event.refineEv
      { questionlatest := "q0", sqllatest := "SQL0", resultlatest := "RES0",
        questionhistory := [], sqlhistory := [], resulthistory := [],
        feedback := "Fail: missing columns", nl := "" }
      ⟨"q0", [], "Fail: missing columns", MEDICAL_TERM_DICT⟩ ("q1")
      ∈ (runLoop oOnce (initialState ("q0")) 0 0).trace := by
    rw [oOnce_eval]
    simp
  exact ⟨hm,
    (c8_refiner_request oOnce (initialState ("q0")) 0 0).2 _ _ _ hm⟩

/-- Claim C9: the request sent to the judge is a function of
questionlatest and resultlatest only; two states agreeing on those two
fields produce identical judge requests, whatever their other fields
(in particular sqllatest, the query text) contain. -/
theorem c9_judge_purity :
    ∀ (s1 s2 : State),
      s1.questionlatest = s2.questionlatest →
      s1.resultlatest = s2.resultlatest →
      judgeRequestOf s1 = judgeRequestOf s2 := by
  intro s1 s2 h1 h2
  unfold judgeRequestOf
  rw [h1, h2]

/-- Witness for C9: two states differing only in the generated query text
yield the same judge request. -/
theorem c9_judge_purity_witness :
    ({ initialState ("q") with sqllatest := "QUERY A" } : State).sqllatest ≠
      ({ initialState ("q") with sqllatest := "QUERY B" } : State).sqllatest ∧
    judgeRequestOf { initialState ("q") with sqllatest := "QUERY A" } =
      judgeRequestOf { initialState ("q") with sqllatest := "QUERY B" } := by
  exact ⟨by decide, c9_judge_purity _ _ rfl rfl⟩

/-- Claim C10: the state fields sqlhistory and resulthistory are
initialized to empty lists by respond and no node of the workflow ever
modifies them, so every successfully completed invocation ends with both
still empty. -/
theorem c10_spurious_histories :
    (∀ q, (initialState q).sqlhistory = [] ∧ (initialState q).resulthistory = []) ∧
    (∀ (state : State) (e r : LobResult),
        (selectai state e r).sqlhistory = state.sqlhistory ∧
        (selectai state e r).resulthistory = state.resulthistory) ∧
    (∀ (state : State) (c : Nat) (fb : String),
        ((check_selectai_output state c fb).2.1).sqlhistory = state.sqlhistory ∧
        ((check_selectai_output state c fb).2.1).resulthistory = state.resulthistory) ∧
    (∀ (state : State) (newQ : String),
        (improve_question state newQ).sqlhistory = state.sqlhistory ∧
        (improve_question state newQ).resulthistory = state.resulthistory) ∧
    (∀ (state : State) (a : String),
        (result2nl state a).sqlhistory = state.sqlhistory ∧
        (result2nl state a).resulthistory = state.resulthistory) ∧
    (∀ (o : Oracles) (q : String) (counter : Nat) (st' : State),
        (respond q o counter).result = Except.ok st' →
        st'.sqlhistory = [] ∧ st'.resulthistory = []) := by
  refine ⟨fun q => ⟨rfl, rfl⟩,
    fun state e r => ⟨selectai_sqlhistory state e r, selectai_resulthistory state e r⟩,
    ?_, fun state newQ => ⟨rfl, rfl⟩, fun state a => ⟨rfl, rfl⟩, ?_⟩
  · intro state c fb
    unfold check_selectai_output
    by_cases hc : hasPassToken fb = true ∨ MAX_RETRIES ≤ c + 1
    · rw [if_pos hc]
      exact ⟨rfl, rfl⟩
    · rw [if_neg hc]
      exact ⟨rfl, rfl⟩
  · intro o q counter st' h
    obtain ⟨-, -, -, hres⟩ :=
      runLoop_inv MAX_RETRIES o (initialState q) counter 0 (Nat.sub_le _ _)
    obtain ⟨h1, h2, -⟩ := hres st' h
    exact ⟨h1, h2⟩

/-- Witness for C10: the completed oOnce invocation ends with empty
sqlhistory and resulthistory. -/
theorem c10_spurious_histories_witness :
    ((respond ("q0") oOnce 0).result = Except.ok oOnceFinal) ∧
    oOnceFinal.sqlhistory = [] ∧ oOnceFinal.resulthistory = [] := by
  have h : (respond ("q0") oOnce 0).result = Except.ok oOnceFinal := by
    unfold respond
    rw [oOnce_eval]
  exact ⟨h, c10_spurious_histories.2.2.2.2.2 oOnce ("q0") 0 oOnceFinal h⟩
